import Mathlib

/- Verification development for the Data Playground page
(src/app/src/pages/01_Playground.py).

Modelling conventions.  Python numbers (int and float) are modelled as
rationals; Python int() truncates toward zero, modelled by Int.tdiv of the
numerator by the denominator.  JSON dictionaries coming from the backend are
modelled as functions from String to Option of a rational (none = key absent);
the numeric content of a numeric string such as "5000000" is modelled by its
value, since int() and float() parse it.  Session state entries that may be
absent are modelled as Option values; Python truthiness of a string is
modelled as the test against the empty string. -/

namespace Playground

/-- Python int() applied to a number: truncation toward zero. -/
def pyInt (q : ℚ) : ℚ := ((Int.tdiv q.num (q.den : ℤ) : ℤ) : ℚ)

/-- Final coercion of get_default_value (lines 367-370): int(value) when
as_int is set, float(value) (the identity on the rational model) otherwise. -/
def py_coerce (as_int : Bool) (q : ℚ) : ℚ := if as_int then pyInt q else q

/-- FEATURE_MAPPING (lines 25-37): display name to backend field name, in
source order. -/
def FEATURE_MAPPING : List (String × String) := [
  ("Population", "Population"),
  ("GDP per capita", "GDP_per_capita"),
  ("Trade union density", "Trade_union_density"),
  ("Unemployment rate", "Unemployment_rate"),
  ("Health", "Health"),
  ("Education", "Education"),
  ("Housing", "Housing"),
  ("Community development", "Community_development"),
  ("Productivity", "Productivity"),
  ("Inflation", "Inflation"),
  ("IRLT", "IRLT")]

/-- Options of the Region selectbox (lines 467-470), which are exactly the
four keys of the regions dictionary of map_regions (lines 138-141). -/
def control_layer_region_options : List String := [
  "East Asia and Pacific",
  "Europe and Central Asia",
  "Latin America and Caribbean",
  "Middle East and North Africa"]

/-- map_regions (lines 137-146).  The Python body initialises a dictionary
with the four known region keys at 0 and then assigns 1 to the key named by
the argument; an unknown argument therefore inserts a fresh key and leaves
all four known entries at 0.  The returned tuple reads back the four known
entries, so each component is 1 exactly when the argument equals that key. -/
def map_regions (region : String) : ℚ × ℚ × ℚ × ℚ :=
  ((if region = "East Asia and Pacific" then 1 else 0),
   (if region = "Europe and Central Asia" then 1 else 0),
   (if region = "Latin America and Caribbean" then 1 else 0),
   (if region = "Middle East and North Africa" then 1 else 0))

/-- get_region_from_features (lines 148-156) over a feature dictionary.  The
Python function tests the four region keys against 1 in a fixed order and
falls off the end, returning None, when none of them equals 1.  Call sites
pass dictionaries that contain all four region keys, so the Option-valued
lookup never hides a KeyError in the behaviours modelled here. -/
def get_region_from_features (features : String → Option ℚ) : Option ℕ :=
  if features "Region_East_Asia_and_Pacific" = some 1 then some 0
  else if features "Region_Europe_and_Central_Asia" = some 1 then some 1
  else if features "Region_Latin_America_and_Caribbean" = some 1 then some 2
  else if features "Region_Middle_East_and_North_Africa" = some 1 then some 3
  else none

/-- A saved graph held in session state under loaded_graph.  The features
entry of the JSON record may be absent, matching the membership test on line
361; when present it is a dictionary. -/
structure LoadedGraph where
  features : Option (String → Option ℚ)

/-- get_default_value (lines 358-370).  The priority chain on lines 361-364:
the loaded graph is used when it is present and contains a features entry;
otherwise the selected preset is used when present; otherwise the fallback
default.  A key missing from the chosen dictionary also yields the fallback.
The result is coerced by int() when as_int is set, by float() otherwise. -/
def get_default_value (loaded_graph : Option LoadedGraph)
    (selected_preset_data : Option (String → Option ℚ))
    (feature_key : String) (fallback_default : ℚ) (as_int : Bool) : ℚ :=
  let value :=
    match loaded_graph with
    | some g =>
      match g.features with
      | some fs => (fs feature_key).getD fallback_default
      | none =>
        match selected_preset_data with
        | some p => (p feature_key).getD fallback_default
        | none => fallback_default
    | none =>
      match selected_preset_data with
      | some p => (p feature_key).getD fallback_default
      | none => fallback_default
  py_coerce as_int value

/-- get_default_region (lines 372-380): same priority chain, delegating to
get_region_from_features on the chosen dictionary; 0 when neither a loaded
graph with features nor a preset is present.  The Python function returns an
int or None, modelled as Option of a natural number. -/
def get_default_region (loaded_graph : Option LoadedGraph)
    (selected_preset_data : Option (String → Option ℚ)) : Option ℕ :=
  match loaded_graph with
  | some g =>
    match g.features with
    | some fs => get_region_from_features fs
    | none =>
      match selected_preset_data with
      | some p => get_region_from_features p
      | none => some 0
  | none =>
    match selected_preset_data with
    | some p => get_region_from_features p
    | none => some 0

/-- A preset entry from the backend presets payload: a heterogeneous record
whose fields may all be absent (matching_entry.get supplies defaults). -/
structure PresetEntry where
  Region : Option String
  Population : Option ℚ
  GDP_per_capita : Option ℚ
  Trade_union_density : Option ℚ
  Unemployment_rate : Option ℚ
  Health : Option ℚ
  Education : Option ℚ
  Housing : Option ℚ
  Community_development : Option ℚ
  Corporate_tax_rate : Option ℚ
  Inflation : Option ℚ
  IRLT : Option ℚ

/-- The feature snapshot built by the page: 11 scalar features plus the four
region indicator fields (preset_values on lines 322-338, and the
feature_values dictionaries on lines 514-533, 559-578, 613-632). -/
structure FeatureSnapshot where
  Population : ℚ
  GDP_per_capita : ℚ
  Trade_union_density : ℚ
  Unemployment_rate : ℚ
  Health : ℚ
  Education : ℚ
  Housing : ℚ
  Community_development : ℚ
  Corporate_tax_rate : ℚ
  Inflation : ℚ
  IRLT : ℚ
  Region_East_Asia_and_Pacific : ℚ
  Region_Europe_and_Central_Asia : ℚ
  Region_Latin_America_and_Caribbean : ℚ
  Region_Middle_East_and_North_Africa : ℚ
  deriving DecidableEq

/-- The four region indicator fields of a snapshot, in source order. -/
def snapshot_regions (f : FeatureSnapshot) : ℚ × ℚ × ℚ × ℚ :=
  (f.Region_East_Asia_and_Pacific, f.Region_Europe_and_Central_Asia,
   f.Region_Latin_America_and_Caribbean, f.Region_Middle_East_and_North_Africa)

/-- Apply Preset handler, lines 317-338: the Region field defaults to
"Europe and Central Asia" when absent (matching_entry.get on line 318), the
region tuple comes from map_regions, Population is coerced by int() with
default 22000000, and every other scalar is coerced by float() with its
hardcoded default. -/
def apply_preset (e : PresetEntry) : FeatureSnapshot :=
  let region_name := (e.Region).getD "Europe and Central Asia"
  let regions := map_regions region_name
  { Population := pyInt ((e.Population).getD 22000000),
    GDP_per_capita := (e.GDP_per_capita).getD 41000.0,
    Trade_union_density := (e.Trade_union_density).getD 33.0,
    Unemployment_rate := (e.Unemployment_rate).getD 8.0,
    Health := (e.Health).getD 0.064,
    Education := (e.Education).getD 0.052,
    Housing := (e.Housing).getD 0.0032,
    Community_development := (e.Community_development).getD 0.0019,
    Corporate_tax_rate := (e.Corporate_tax_rate).getD 21.0,
    Inflation := (e.Inflation).getD 2.1,
    IRLT := (e.IRLT).getD 7.9,
    Region_East_Asia_and_Pacific := regions.1,
    Region_Europe_and_Central_Asia := regions.2.1,
    Region_Latin_America_and_Caribbean := regions.2.2.1,
    Region_Middle_East_and_North_Africa := regions.2.2.2 }

/-- View of a feature snapshot as a dictionary keyed by backend field name,
as the preset_values dictionary is stored in session state. -/
def FeatureSnapshot.toMap (f : FeatureSnapshot) : String → Option ℚ := fun k =>
  if k = "Population" then some f.Population
  else if k = "GDP_per_capita" then some f.GDP_per_capita
  else if k = "Trade_union_density" then some f.Trade_union_density
  else if k = "Unemployment_rate" then some f.Unemployment_rate
  else if k = "Health" then some f.Health
  else if k = "Education" then some f.Education
  else if k = "Housing" then some f.Housing
  else if k = "Community_development" then some f.Community_development
  else if k = "Corporate_tax_rate" then some f.Corporate_tax_rate
  else if k = "Inflation" then some f.Inflation
  else if k = "IRLT" then some f.IRLT
  else if k = "Region_East_Asia_and_Pacific" then some f.Region_East_Asia_and_Pacific
  else if k = "Region_Europe_and_Central_Asia" then some f.Region_Europe_and_Central_Asia
  else if k = "Region_Latin_America_and_Caribbean" then some f.Region_Latin_America_and_Caribbean
  else if k = "Region_Middle_East_and_North_Africa" then some f.Region_Middle_East_and_North_Africa
  else none

/-- The active prediction series stored in session state graph_data
(lines 595-599). -/
structure GraphData where
  x_values : List ℚ
  y_values : List ℚ
  feature_name : String

/-- The slice of session state the handlers below read and write. -/
structure SessionState where
  graph_data : Option GraphData
  loaded_graph : Option LoadedGraph
  selected_preset : Option FeatureSnapshot
  cache_cleared : Bool

/-- Generate Graph button handler, lines 552-604.  The result is the new
session state, whether a backend prediction request was issued, and whether
a user-facing error message was displayed.  Validation (lines 553-556)
checks x_min >= x_max and then steps < 5; there is no handler check of an
upper bound on steps (the steps widget on line 547 carries max_value 100).
The backend argument models the outcome of generate_real_predictions
(lines 106-133): none when the request fails with a network error or a
non-200 status, in which case that function returns the pair (None, None)
and the handler (lines 593-604) leaves graph_data untouched. -/
def generate_graph_handler (x_min x_max : ℚ) (steps : ℤ)
    (compare_feature : String) (backend : Option (List ℚ × List ℚ))
    (s : SessionState) : SessionState × Bool × Bool :=
  if x_min ≥ x_max then (s, false, true)
  else if steps < 5 then (s, false, true)
  else
    match backend with
    | some (xs, ys) =>
      ({ s with graph_data := some ⟨xs, ys, compare_feature⟩ }, true, false)
    | none => (s, true, true)

/-- The save payload posted to the backend (lines 57-65). -/
structure SaveRequest where
  user_id : ℤ
  name : String
  x_axis : String
  x_min : ℚ
  x_max : ℚ
  x_steps : ℤ
  features : FeatureSnapshot

/-- Save Graph button handler, lines 611-651.  The guard on line 611 is the
button press conjoined with the truthiness of graph_name, so an empty name
skips the whole block: no request is built and session state is untouched.
Otherwise the request is posted; on a 201 response the saved-graphs cache is
cleared (line 648), on failure only an error message is shown. -/
def save_graph_handler (graph_name : String) (user_id : ℤ) (x_axis : String)
    (x_min x_max : ℚ) (steps : ℤ) (fv : FeatureSnapshot)
    (backend_ok : Bool) (s : SessionState) : SessionState × Option SaveRequest :=
  if graph_name = "" then (s, none)
  else
    ((if backend_ok then { s with cache_cleared := true } else s),
     some ⟨user_id, graph_name, x_axis, x_min, x_max, steps, fv⟩)

/-- Static description of one outbound HTTP call site of the page: whether it
sits inside one of the API client wrapper functions, the timeout argument it
passes (none = no timeout argument), and whether the call is wrapped in a
try block that turns RequestException and non-success statuses into a value
returned to the caller. -/
structure ApiCallSite where
  endpoint : String
  in_api_client : Bool
  timeout_seconds : Option ℕ
  returns_tagged_failure : Bool
  deriving DecidableEq

/-- Every requests call site of the page, transcribed from the source: the
six API client wrapper functions (lines 44, 67, 76, 87, 98, 119) and the two
inline calls, the loaded-graph fetch at line 175 and the standard-deviations
fetch at line 536, neither of which passes a timeout or handles errors. -/
def api_call_sites : List ApiCallSite := [
  ⟨"GET /playground/features", true, some 10, true⟩,
  ⟨"POST /playground/save", true, some 10, true⟩,
  ⟨"GET /playground/saved/:user_id", true, some 10, true⟩,
  ⟨"GET /playground/graph/:graph_id", true, some 10, true⟩,
  ⟨"GET /playground/presets", true, some 10, true⟩,
  ⟨"POST /models/playground/predict", true, some 10, true⟩,
  ⟨"GET /playground/graph/:loaded_graph_id", false, none, false⟩,
  ⟨"GET /models/playground/stds", false, none, false⟩]

/-- Fallback feature list (line 204): the display-name keys of
FEATURE_MAPPING, used when the backend feature fetch fails. -/
def fallback_features : List String := FEATURE_MAPPING.map Prod.fst

/-- Python slice xs[:-4] used on line 500: drop the last four elements
(empty result when the list has at most four elements). -/
def py_slice_drop_last_4 (l : List String) : List String := l.take (l.length - 4)

/-- Options offered by the Feature selectbox (lines 499-513): the available
feature list with its last four entries unconditionally removed. -/
def compare_feature_options (available_features : List String) : List String :=
  py_slice_drop_last_4 available_features

/-- Exactly one of the four region indicators is 1 and the other three 0. -/
def region_one_hot (t : ℚ × ℚ × ℚ × ℚ) : Prop :=
  (t.1 = 1 ∧ t.2.1 = 0 ∧ t.2.2.1 = 0 ∧ t.2.2.2 = 0) ∨
  (t.1 = 0 ∧ t.2.1 = 1 ∧ t.2.2.1 = 0 ∧ t.2.2.2 = 0) ∨
  (t.1 = 0 ∧ t.2.1 = 0 ∧ t.2.2.1 = 1 ∧ t.2.2.2 = 0) ∨
  (t.1 = 0 ∧ t.2.1 = 0 ∧ t.2.2.1 = 0 ∧ t.2.2.2 = 1)

/-- Sum of the four region indicators. -/
def region_sum (t : ℚ × ℚ × ℚ × ℚ) : ℚ := t.1 + t.2.1 + t.2.2.1 + t.2.2.2

/-- A session state with nothing loaded, used as a concrete input. -/
def s0 : SessionState := ⟨none, none, none, false⟩

/-- A preset entry with every field absent. -/
def empty_entry : PresetEntry :=
  ⟨none, none, none, none, none, none, none, none, none, none, none, none⟩

/-- A preset entry whose Region field names a region outside the lookup
table of map_regions. -/
def c3_entry : PresetEntry := { empty_entry with Region := some "Sub-Saharan Africa" }

/-- Another preset entry with an unknown region name. -/
def c4_entry : PresetEntry := { empty_entry with Region := some "South Asia" }

/-- The preset entry of the C7 scenario: Middle East and North Africa,
Population 5000000 (the numeric content of the string "5000000"). -/
def c7_entry : PresetEntry :=
  { empty_entry with Region := some "Middle East and North Africa",
                     Population := some 5000000 }

/-- Feature dictionary of a concrete loaded graph, used as a witness input. -/
def c2_graph_features : String → Option ℚ :=
  fun k => if k = "Population" then some 7000000 else none

/-- A concrete loaded graph holding c2_graph_features. -/
def c2_graph : LoadedGraph := ⟨some c2_graph_features⟩

/-- A concrete preset dictionary that answers 99 for every key. -/
def c2_preset_map : String → Option ℚ := fun _ => some 99

/-- A feature dictionary whose four region indicators are all 0. -/
def c5_zero_features : String → Option ℚ := fun _ => some 0

/-- A feature dictionary with the East Asia and Pacific indicator set. -/
def c5_east_features : String → Option ℚ :=
  fun k => if k = "Region_East_Asia_and_Pacific" then some 1 else some 0

/-- The call site of fetch_available_features (line 44). -/
def features_call_site : ApiCallSite := ⟨"GET /playground/features", true, some 10, true⟩

/-- The region fields of apply_preset are exactly map_regions applied to the
Region field of the entry, with the Europe default for a missing field. -/
theorem apply_preset_regions (e : PresetEntry) :
    snapshot_regions (apply_preset e) =
      map_regions ((e.Region).getD "Europe and Central Asia") := rfl

/-- pyInt is the identity on rationals with denominator 1. -/
theorem pyInt_eq_self (q : ℚ) (h : q.den = 1) : pyInt q = q := by
  have hq := Rat.num_div_den q
  rw [h] at hq
  simp only [Nat.cast_one, div_one] at hq
  rw [pyInt, h]
  simpa [Int.tdiv_one] using hq

/-- map_regions of a known region string is one-hot with indicator sum 1. -/
theorem region_one_hot_of_mem :
    ∀ r ∈ control_layer_region_options,
      region_one_hot (map_regions r) ∧ region_sum (map_regions r) = 1 := by
  intro r hr
  simp only [control_layer_region_options, List.mem_cons, List.not_mem_nil,
    or_false] at hr
  rcases hr with rfl | rfl | rfl | rfl <;>
    exact ⟨by simp [map_regions, region_one_hot], by simp [map_regions, region_sum]⟩

/-- C8: the Save Graph handler rejects an empty graph name client-side: no
save request is built and session state is returned unchanged. -/
theorem c8_empty_name_rejected :
    ∀ (user_id : ℤ) (x_axis : String) (x_min x_max : ℚ) (steps : ℤ)
      (fv : FeatureSnapshot) (backend_ok : Bool) (s : SessionState),
      save_graph_handler "" user_id x_axis x_min x_max steps fv backend_ok s = (s, none) := by
  intro user_id x_axis x_min x_max steps fv backend_ok s
  rfl

/-- C9: when the prediction sweep fails (modelled by a backend outcome of
none, covering network errors and non-success statuses), the Generate Graph
handler returns the session state unchanged, so the previously active
prediction series in graph_data is preserved. -/
theorem c9_failure_preserves_state :
    ∀ (x_min x_max : ℚ) (steps : ℤ) (fn : String) (s : SessionState),
      (generate_graph_handler x_min x_max steps fn none s).1 = s := by
  intro x_min x_max steps fn s
  unfold generate_graph_handler
  split
  · rfl
  split
  · rfl
  rfl

/-- C10: when the page falls back to the hardcoded 11-name feature list, the
Feature selectbox drops the last four entries unconditionally and offers
exactly the first 7 display names. -/
theorem c10_fallback_selector :
    fallback_features.length = 11 ∧
    compare_feature_options fallback_features = fallback_features.take 7 ∧
    compare_feature_options fallback_features =
      ["Population", "GDP per capita", "Trade union density", "Unemployment rate",
       "Health", "Education", "Housing"] := by
  refine ⟨rfl, rfl, rfl⟩

/-- C1 counterexample: at xMin=0, xMax=10, steps=150 (steps outside [5,100])
the Generate Graph handler issues a backend prediction request and shows no
validation error, contradicting the claim that steps outside [5,100] is
rejected without a backend call. -/
theorem c1_counterexample :
    ¬ ((generate_graph_handler 0 10 150 "Population" (some ([0], [0])) s0).2.1 = false ∧
       (generate_graph_handler 0 10 150 "Population" (some ([0], [0])) s0).2.2 = true) := by
  decide

/-- C1 (amended): the Generate Graph handler validates xMin < xMax and
steps at least 5 before calling the backend, showing a validation error and
issuing no request otherwise; in particular (10, 5, 20) and (0, 10, 3) are
both rejected without a backend call.  The handler itself performs no upper
bound check on steps; the steps input widget enforces steps at most 100. -/
theorem c1_validation :
    (∀ (x_min x_max : ℚ) (steps : ℤ) (fn : String)
       (b : Option (List ℚ × List ℚ)) (s : SessionState),
       x_min ≥ x_max ∨ steps < 5 →
       generate_graph_handler x_min x_max steps fn b s = (s, false, true)) ∧
    (∀ (fn : String) (b : Option (List ℚ × List ℚ)) (s : SessionState),
       generate_graph_handler 10 5 20 fn b s = (s, false, true)) ∧
    (∀ (fn : String) (b : Option (List ℚ × List ℚ)) (s : SessionState),
       generate_graph_handler 0 10 3 fn b s = (s, false, true)) ∧
    (∀ (x_min x_max : ℚ) (steps : ℤ) (fn : String)
       (b : Option (List ℚ × List ℚ)) (s : SessionState),
       x_min < x_max → 5 ≤ steps →
       (generate_graph_handler x_min x_max steps fn b s).2.1 = true) := by
  refine ⟨?_, ?_, ?_, ?_⟩
  · intro x_min x_max steps fn b s h
    unfold generate_graph_handler
    rcases h with h | h
    · rw [if_pos h]
    · by_cases hx : x_min ≥ x_max
      · rw [if_pos hx]
      · rw [if_neg hx, if_pos h]
  · intro fn b s
    unfold generate_graph_handler
    rw [if_pos (by norm_num)]
  · intro fn b s
    unfold generate_graph_handler
    rw [if_neg (by norm_num), if_pos (by norm_num)]
  · intro x_min x_max steps fn b s hx hs
    unfold generate_graph_handler
    rw [if_neg (not_le.mpr hx), if_neg (by omega)]
    rcases b with _ | ⟨xs, ys⟩
    · rfl
    · rfl

/-- C1 witness: the amended validation theorem at the concrete rejected
request (xMin=10, xMax=5, steps=20). -/
theorem c1_validation_witness :
    generate_graph_handler 10 5 20 "Population" none s0 = (s0, false, true) :=
  c1_validation.1 10 5 20 "Population" none s0 (Or.inl (by norm_num))

/-- C2: default-value resolution follows the strict priority loaded graph,
then selected preset, then hardcoded default: with a loaded graph present
(holding the key) the result is the graph value regardless of the preset;
with no graph the preset value applies; with neither, the fallback, in
particular 22000000 for Population and 41000.0 for GDP per capita. -/
theorem c2_default_priority :
    (∀ (g : LoadedGraph) (fs p : String → Option ℚ) (key : String) (v fb : ℚ) (ai : Bool),
       g.features = some fs → fs key = some v →
       get_default_value (some g) (some p) key fb ai = py_coerce ai v) ∧
    (∀ (p : String → Option ℚ) (key : String) (v fb : ℚ) (ai : Bool),
       p key = some v →
       get_default_value none (some p) key fb ai = py_coerce ai v) ∧
    (∀ (key : String) (fb : ℚ) (ai : Bool),
       get_default_value none none key fb ai = py_coerce ai fb) ∧
    get_default_value none none "Population" 22000000 true = 22000000 ∧
    get_default_value none none "GDP_per_capita" 41000.0 false = 41000.0 := by
  refine ⟨?_, ?_, ?_, ?_, rfl⟩
  · intro g fs p key v fb ai hg hk
    obtain ⟨gf⟩ := g
    simp only at hg
    subst hg
    simp [get_default_value, hk]
  · intro p key v fb ai hk
    simp [get_default_value, hk]
  · intro key fb ai
    rfl
  · show py_coerce true 22000000 = 22000000
    simp [py_coerce, pyInt_eq_self]

/-- C2 witness: with a loaded graph whose Population is 7000000 and a preset
present, the resolved Population default is the graph value. -/
theorem c2_default_priority_witness :
    get_default_value (some c2_graph) (some c2_preset_map) "Population" 22000000 true =
      py_coerce true 7000000 :=
  c2_default_priority.1 c2_graph c2_graph_features c2_preset_map "Population"
    7000000 22000000 true rfl rfl

/-- C3 counterexample: applying a preset whose Region is the unknown string
"Sub-Saharan Africa" yields a snapshot whose four region indicators are all
0: no indicator is 1 and the indicator sum is 0, not 1. -/
theorem c3_counterexample :
    ¬ region_one_hot (snapshot_regions (apply_preset c3_entry)) ∧
    region_sum (snapshot_regions (apply_preset c3_entry)) = 0 := by
  rw [apply_preset_regions]
  constructor
  · simp [c3_entry, empty_entry, map_regions, region_one_hot]
  · simp [c3_entry, empty_entry, map_regions, region_sum]

/-- C3 (amended): every snapshot produced by the control layer is region
one-hot, since the Region selectbox offers exactly the four known strings;
preset application is region one-hot whenever the Region field of the entry
is absent or holds one of the four known strings, and an entry with an
unknown region string yields all four indicators 0. -/
theorem c3_region_one_hot :
    (∀ r ∈ control_layer_region_options,
       region_one_hot (map_regions r) ∧ region_sum (map_regions r) = 1) ∧
    (∀ e : PresetEntry, (∀ r, e.Region = some r → r ∈ control_layer_region_options) →
       region_one_hot (snapshot_regions (apply_preset e)) ∧
       region_sum (snapshot_regions (apply_preset e)) = 1) := by
  refine ⟨region_one_hot_of_mem, ?_⟩
  intro e he
  rw [apply_preset_regions]
  rcases hr : e.Region with _ | r
  · simpa using
      region_one_hot_of_mem "Europe and Central Asia" (by simp [control_layer_region_options])
  · simpa using region_one_hot_of_mem r (he r hr)

/-- C3 witness: the amended theorem at the control-layer region option
"Latin America and Caribbean". -/
theorem c3_region_one_hot_witness :
    region_one_hot (map_regions "Latin America and Caribbean") ∧
    region_sum (map_regions "Latin America and Caribbean") = 1 :=
  c3_region_one_hot.1 "Latin America and Caribbean" (by simp [control_layer_region_options])

/-- C4 counterexample: applying a preset whose Region holds the unknown name
"South Asia" does not set the Europe and Central Asia indicator; the claimed
Europe default does not occur and all four indicators are 0. -/
theorem c4_counterexample :
    ¬ ((apply_preset c4_entry).Region_Europe_and_Central_Asia = 1 ∧
       (apply_preset c4_entry).Region_East_Asia_and_Pacific = 0 ∧
       (apply_preset c4_entry).Region_Latin_America_and_Caribbean = 0 ∧
       (apply_preset c4_entry).Region_Middle_East_and_North_Africa = 0) := by
  intro h
  have he : (apply_preset c4_entry).Region_Europe_and_Central_Asia = 0 := by
    simp [apply_preset, c4_entry, empty_entry, map_regions]
  rw [h.1] at he
  exact one_ne_zero he

/-- C4 (amended): the Europe and Central Asia default applies only when the
Region field of the preset entry is absent; a present but unknown region
name yields the all-zero region vector, not the Europe default. -/
theorem c4_unknown_region :
    (∀ e : PresetEntry, e.Region = none →
       snapshot_regions (apply_preset e) = map_regions "Europe and Central Asia" ∧
       (apply_preset e).Region_Europe_and_Central_Asia = 1) ∧
    (∀ (e : PresetEntry) (r : String), e.Region = some r →
       r ∉ control_layer_region_options →
       snapshot_regions (apply_preset e) = (0, 0, 0, 0)) := by
  constructor
  · intro e he
    constructor
    · rw [apply_preset_regions, he]
      rfl
    · simp [apply_preset, he, map_regions]
  · intro e r he hr
    simp only [control_layer_region_options, List.mem_cons, List.not_mem_nil,
      or_false, not_or] at hr
    obtain ⟨h1, h2, h3, h4⟩ := hr
    rw [apply_preset_regions, he]
    simp [map_regions, h1, h2, h3, h4]

/-- C4 witness: the amended theorem at an entry with no Region field. -/
theorem c4_unknown_region_witness :
    snapshot_regions (apply_preset empty_entry) = map_regions "Europe and Central Asia" ∧
    (apply_preset empty_entry).Region_Europe_and_Central_Asia = 1 :=
  c4_unknown_region.1 empty_entry rfl

/-- C5 counterexample: an override whose four region indicators are all 0
yields no region index at all (the scan falls through to None), so the
claimed property that every override input yields a valid index in 0..3
fails. -/
theorem c5_counterexample :
    ¬ ∃ i : ℕ, get_default_region none (some c5_zero_features) = some i := by
  rintro ⟨i, h⟩
  simp [get_default_region, get_region_from_features, c5_zero_features] at h

/-- C5 (amended): the region default scans the four one-hot fields in the
fixed source order and returns the index of the first field equal to 1; any
returned index is in 0..3; when no field is set the scan returns no index
(None, not an index in 0..3); and with no override present the default is
index 0. -/
theorem c5_region_scan :
    (∀ fs : String → Option ℚ, fs "Region_East_Asia_and_Pacific" = some 1 →
       get_region_from_features fs = some 0) ∧
    (∀ fs : String → Option ℚ, fs "Region_East_Asia_and_Pacific" ≠ some 1 →
       fs "Region_Europe_and_Central_Asia" = some 1 →
       get_region_from_features fs = some 1) ∧
    (∀ fs : String → Option ℚ, fs "Region_East_Asia_and_Pacific" ≠ some 1 →
       fs "Region_Europe_and_Central_Asia" ≠ some 1 →
       fs "Region_Latin_America_and_Caribbean" = some 1 →
       get_region_from_features fs = some 2) ∧
    (∀ fs : String → Option ℚ, fs "Region_East_Asia_and_Pacific" ≠ some 1 →
       fs "Region_Europe_and_Central_Asia" ≠ some 1 →
       fs "Region_Latin_America_and_Caribbean" ≠ some 1 →
       fs "Region_Middle_East_and_North_Africa" = some 1 →
       get_region_from_features fs = some 3) ∧
    (∀ fs : String → Option ℚ, fs "Region_East_Asia_and_Pacific" ≠ some 1 →
       fs "Region_Europe_and_Central_Asia" ≠ some 1 →
       fs "Region_Latin_America_and_Caribbean" ≠ some 1 →
       fs "Region_Middle_East_and_North_Africa" ≠ some 1 →
       get_region_from_features fs = none) ∧
    (∀ (fs : String → Option ℚ) (i : ℕ), get_region_from_features fs = some i → i ≤ 3) ∧
    get_default_region none none = some 0 := by
  refine ⟨?_, ?_, ?_, ?_, ?_, ?_, rfl⟩
  · intro fs h1
    simp [get_region_from_features, h1]
  · intro fs h1 h2
    simp [get_region_from_features, h1, h2]
  · intro fs h1 h2 h3
    simp [get_region_from_features, h1, h2, h3]
  · intro fs h1 h2 h3 h4
    simp [get_region_from_features, h1, h2, h3, h4]
  · intro fs h1 h2 h3 h4
    simp [get_region_from_features, h1, h2, h3, h4]
  · intro fs i h
    unfold get_region_from_features at h
    split_ifs at h <;> simp_all <;> omega

/-- C5 witness: the amended scan theorem at a dictionary with the East Asia
and Pacific indicator set. -/
theorem c5_region_scan_witness :
    get_region_from_features c5_east_features = some 0 :=
  c5_region_scan.1 c5_east_features rfl

/-- C6 counterexample: not every outbound call of the page carries the
10-second timeout and tagged-failure handling; the inline standard-deviation
and loaded-graph fetches carry neither. -/
theorem c6_counterexample :
    ¬ ∀ c ∈ api_call_sites,
        c.timeout_seconds = some 10 ∧ c.returns_tagged_failure = true := by
  intro h
  have hm : (⟨"GET /models/playground/stds", false, none, false⟩ : ApiCallSite) ∈
      api_call_sites := by
    simp [api_call_sites]
  have := (h _ hm).1
  simp at this

/-- C6 (amended): every outbound call made from the API client wrapper
functions carries the fixed 10-second timeout and returns a tagged failure
to its caller; the two inline call sites (the loaded-graph fetch at line 175
and the standard-deviations fetch at line 536) carry no timeout and no
failure handling. -/
theorem c6_api_client_calls :
    (∀ c ∈ api_call_sites, c.in_api_client = true →
       c.timeout_seconds = some 10 ∧ c.returns_tagged_failure = true) ∧
    (∀ c ∈ api_call_sites, c.in_api_client = false →
       c.timeout_seconds = none ∧ c.returns_tagged_failure = false) := by
  constructor <;>
    · intro c hc
      fin_cases hc <;> simp

/-- C6 witness: the amended theorem at the feature-list call site. -/
theorem c6_api_client_calls_witness :
    features_call_site.timeout_seconds = some 10 ∧
    features_call_site.returns_tagged_failure = true :=
  c6_api_client_calls.1 features_call_site (by simp [api_call_sites, features_call_site]) rfl

/-- C7: applying the preset entry with Region Middle East and North Africa
and Population 5000000 yields the Middle East indicator 1, the other three
indicators 0, and Population 5000000 with denominator 1 (an integer); more
generally a present Population is coerced by int(), a present scalar such as
GDP per capita is passed through float() unchanged, and an entry with every
field missing yields exactly the hardcoded domain defaults. -/
theorem c7_apply_preset :
    (∀ e : PresetEntry, e.Region = some "Middle East and North Africa" →
       e.Population = some 5000000 →
       (apply_preset e).Region_Middle_East_and_North_Africa = 1 ∧
       (apply_preset e).Region_East_Asia_and_Pacific = 0 ∧
       (apply_preset e).Region_Europe_and_Central_Asia = 0 ∧
       (apply_preset e).Region_Latin_America_and_Caribbean = 0 ∧
       (apply_preset e).Population = 5000000) ∧
    (∀ (e : PresetEntry) (q : ℚ), e.Population = some q →
       (apply_preset e).Population = pyInt q ∧ ((apply_preset e).Population).den = 1) ∧
    (∀ (e : PresetEntry) (q : ℚ), e.GDP_per_capita = some q →
       (apply_preset e).GDP_per_capita = q) ∧
    apply_preset empty_entry =
      { Population := 22000000, GDP_per_capita := 41000.0, Trade_union_density := 33.0,
        Unemployment_rate := 8.0, Health := 0.064, Education := 0.052, Housing := 0.0032,
        Community_development := 0.0019, Corporate_tax_rate := 21.0, Inflation := 2.1,
        IRLT := 7.9, Region_East_Asia_and_Pacific := 0, Region_Europe_and_Central_Asia := 1,
        Region_Latin_America_and_Caribbean := 0, Region_Middle_East_and_North_Africa := 0 } := by
  refine ⟨?_, ?_, ?_, ?_⟩
  · intro e h1 h2
    refine ⟨?_, ?_, ?_, ?_, ?_⟩ <;>
      simp [apply_preset, map_regions, h1, h2, pyInt_eq_self]
  · intro e q h
    constructor
    · simp [apply_preset, h]
    · simp [apply_preset, h, pyInt, Rat.den_intCast]
  · intro e q h
    simp [apply_preset, h]
  · simp only [apply_preset, empty_entry, Option.getD_none, map_regions]
    norm_num [pyInt_eq_self]
    decide

/-- C7 witness: the scenario theorem at the concrete entry c7_entry. -/
theorem c7_apply_preset_witness :
    (apply_preset c7_entry).Region_Middle_East_and_North_Africa = 1 ∧
    (apply_preset c7_entry).Region_East_Asia_and_Pacific = 0 ∧
    (apply_preset c7_entry).Region_Europe_and_Central_Asia = 0 ∧
    (apply_preset c7_entry).Region_Latin_America_and_Caribbean = 0 ∧
    (apply_preset c7_entry).Population = 5000000 :=
  c7_apply_preset.1 c7_entry rfl rfl

end Playground
